import Mathlib

/-!
# Verification of the KittenTTS worker pipeline

A shallow embedding of `kittentts_worker.py`: the command decoder
(`parse_speak`, `parse_pause`, the `main` dispatch loop with its
generation counter) and the two pipeline stages (`synth_loop`,
`play_loop`), modelled as pure step functions over explicit state.

The external collaborators (the ONNX synthesis engine and the audio
player subprocess) are modelled as nondeterministic outcome parameters,
exactly at the interface the worker consumes: synthesis either succeeds
producing a file and a duration, or raises; playback returns an exit
code and a stderr string.
-/

namespace KittenWorker

/-! ## Python value model

JSON field values as decoded by `json.loads`: null, booleans, integers,
floats (modelled as exact rationals, adequate for the decimal literals
appearing on the wire), and strings.  Nested arrays/objects as field
values are not modelled (no code path in the worker consumes them).
-/

inductive JsonVal where
  | null
  | bool (b : Bool)
  | int (n : Int)
  | float (q : Rat)
  | str (s : String)
  deriving DecidableEq, Repr

/-- A decoded JSON object: association list from keys to values,
first binding wins (Python dicts have unique keys). -/
abbrev JsonObj := List (String × JsonVal)

/-- `obj.get(k)` returning `None` for a missing key: here `none`. -/
def JsonObj.getVal (o : JsonObj) (k : String) : Option JsonVal :=
  match o.find? (fun p => p.1 == k) with
  | some p => some p.2
  | none => none

/-- `obj.get(k, d)`: the stored value when the key is present (even if
that value is JSON null), otherwise the default. -/
def JsonObj.getD (o : JsonObj) (k : String) (d : JsonVal) : JsonVal :=
  (o.getVal k).getD d

/-- Model of Python `str.strip()`: remove leading and trailing
whitespace characters. -/
def pyStrip (s : String) : String :=
  String.mk (((s.data.dropWhile Char.isWhitespace).reverse.dropWhile
    Char.isWhitespace).reverse)

/-- Decimal rendering of a rational whose denominator divides a power of
ten, used for Python `str()` of a float.  JSON float literals always
have such denominators. -/
def pyStrFloat (q : Rat) : String :=
  let sign := if q < 0 then "-" else ""
  let aq := |q|
  match (List.range 40).find? (fun k => (aq * (10 : Rat) ^ k).den == 1) with
  | some 0 => sign ++ toString aq.num ++ ".0"
  | some k =>
      let scaled := (aq * (10 : Rat) ^ k).num.toNat
      let ds := toString scaled
      let ds := if ds.length ≤ k then
          String.mk (List.replicate (k + 1 - ds.length) '0') ++ ds
        else ds
      let ip := String.mk (ds.data.take (ds.length - k))
      let fp := String.mk (ds.data.drop (ds.length - k))
      sign ++ ip ++ "." ++ fp
  | none => sign ++ toString aq

/-- Model of Python `str(v)` on a decoded JSON value:
`str(None) = "None"`, `str(True) = "True"`, integers and floats render
in decimal, strings are unchanged. -/
def pyStr : JsonVal → String
  | .null => "None"
  | .bool b => if b then "True" else "False"
  | .int n => toString n
  | .float q => pyStrFloat q
  | .str s => s

/-- Digits of a decimal string as a natural number (caller guarantees
all characters are digits). -/
def digitsToNat (cs : List Char) : Nat :=
  cs.foldl (fun a c => a * 10 + (c.toNat - 48)) 0

/-- Split an optional leading sign off a character list, returning the
sign as `1` or `-1`. -/
def splitSign : List Char → Int × List Char
  | '-' :: rest => (-1, rest)
  | '+' :: rest => (1, rest)
  | cs => (1, cs)

/-- Model of Python `float(s)` on a string: optional surrounding
whitespace, optional sign, decimal digits with an optional fractional
part.  (Exponent, `inf`/`nan` and digit-underscore forms are not
modelled; they do not occur in the worker's protocol.) -/
def pyFloatOfString (s : String) : Option Rat :=
  let cs := (pyStrip s).data
  let (sign, cs) := splitSign cs
  let intPart := cs.takeWhile Char.isDigit
  let rest := cs.dropWhile Char.isDigit
  match rest with
  | [] =>
      if intPart.isEmpty then none
      else some ((sign : Rat) * (digitsToNat intPart : Rat))
  | '.' :: fracRest =>
      let fracPart := fracRest.takeWhile Char.isDigit
      let tail := fracRest.dropWhile Char.isDigit
      if tail.isEmpty && (!intPart.isEmpty || !fracPart.isEmpty) then
        some ((sign : Rat) *
          ((digitsToNat intPart : Rat) +
            (digitsToNat fracPart : Rat) / (10 : Rat) ^ fracPart.length))
      else none
  | _ => none

/-- Model of Python `int(s)` on a string: optional surrounding
whitespace, optional sign, one or more decimal digits. -/
def pyIntOfString (s : String) : Option Int :=
  let cs := (pyStrip s).data
  let (sign, cs) := splitSign cs
  if !cs.isEmpty && cs.all Char.isDigit then
    some (sign * (digitsToNat cs : Int))
  else none

/-- Truncation toward zero, Python `int()` applied to a float. -/
def pyTrunc (q : Rat) : Int :=
  if q < 0 then -((-q).floor) else q.floor

/-- Model of Python `float(v)`: `TypeError` on `None` and `ValueError`
on a non-numeric string become `none`; booleans coerce to 0/1. -/
def pyFloat : JsonVal → Option Rat
  | .null => none
  | .bool b => some (if b then 1 else 0)
  | .int n => some (n : Rat)
  | .float q => some q
  | .str s => pyFloatOfString s

/-- Model of Python `int(v)`: `TypeError` on `None` and `ValueError` on
a non-integer string become `none`; floats truncate toward zero;
booleans coerce to 0/1. -/
def pyInt : JsonVal → Option Int
  | .null => none
  | .bool b => some (if b then 1 else 0)
  | .int n => some n
  | .float q => some (pyTrunc q)
  | .str s => pyIntOfString s

/-! ## Job and event data model (the worker's dataclasses and protocol) -/

structure SpeakJob where
  chunk_id : String
  text : String
  voice : String
  speed : Rat
  generation : Int
  deriving DecidableEq, Repr

structure PauseJob where
  chunk_id : String
  pause_ms : Int
  generation : Int
  deriving DecidableEq, Repr

structure SynthResult where
  job : SpeakJob
  wav_path : String
  synth_ms : Nat
  deriving DecidableEq, Repr

/-- The structured output events the worker emits (the `ready` / `fatal`
startup events are outside the modelled pipeline). -/
inductive Event where
  | ack (id : String)
  | synthDone (id : String) (synthMs : Nat)
  | playDone (id : String) (synthMs : Nat) (playMs : Nat)
  | pauseDone (id : String) (pauseMs : Int)
  | cleared (generation : Int)
  | error (id : Option String) (stage : String) (message : String)
  deriving DecidableEq, Repr

/-- An item on the plan queue (decoder → synthesis stage). -/
inductive PlanItem where
  | speak (job : SpeakJob)
  | pauseJob (job : PauseJob)
  deriving DecidableEq, Repr

/-- An item on the play queue (synthesis stage → playback stage). -/
inductive PlayItem where
  | result (r : SynthResult)
  | pauseJob (job : PauseJob)
  deriving DecidableEq, Repr

/-! ## Command decoder: `parse_speak`, `parse_pause` -/

/-- `parse_speak(obj)`.  `curGen` is the value `get_generation()` would
return at decode time (the counter read used for the `generation`
default and fallback). -/
def parse_speak (curGen : Int) (obj : JsonObj) : Option SpeakJob :=
  let chunk_id := pyStrip (pyStr (obj.getD "id" (.str "")))
  let text := pyStrip (pyStr (obj.getD "text" (.str "")))
  let voice0 := pyStrip (pyStr (obj.getD "voice" (.str "Bella")))
  let voice := if voice0 = "" then "Bella" else voice0
  let speed := (pyFloat (obj.getD "speed" (.float 1))).getD 1
  let generation := (pyInt (obj.getD "generation" (.int curGen))).getD curGen
  if chunk_id = "" ∨ text = "" then none
  else some ⟨chunk_id, text, voice, speed, generation⟩

/-- `parse_pause(obj)`; `pause_ms` is clamped non-negative at job
construction. -/
def parse_pause (curGen : Int) (obj : JsonObj) : Option PauseJob :=
  let chunk_id := pyStrip (pyStr (obj.getD "id" (.str "")))
  let pause_ms := (pyInt (obj.getD "pause_ms" (.int 0))).getD 0
  let generation := (pyInt (obj.getD "generation" (.int curGen))).getD curGen
  if chunk_id = "" then none
  else some ⟨chunk_id, max 0 pause_ms, generation⟩

/-! ## Main loop dispatch (decoder side of `main`) -/

/-- Events emitted and plan-queue items enqueued while handling one
decoded command line. -/
structure DecodeEffects where
  events : List Event
  enqueued : List PlanItem
  deriving DecidableEq, Repr

/-- The `op == "speak"` branch of `main`: enqueue-and-ack on a valid
payload, input-stage error otherwise. -/
def handleSpeak (curGen : Int) (obj : JsonObj) : DecodeEffects :=
  match parse_speak curGen obj with
  | none => ⟨[.error none "input" "Invalid speak payload"], []⟩
  | some job => ⟨[.ack job.chunk_id], [.speak job]⟩

/-- The `op == "pause"` branch of `main`. -/
def handlePause (curGen : Int) (obj : JsonObj) : DecodeEffects :=
  match parse_pause curGen obj with
  | none => ⟨[.error none "input" "Invalid pause payload"], []⟩
  | some job => ⟨[.ack job.chunk_id], [.pauseJob job]⟩

/-- Result of dispatching one decoded command: the generation counter
after the command, the emitted events and enqueued jobs, and whether
the input loop breaks (`shutdown`). -/
structure MainStep where
  gen : Int
  effects : DecodeEffects
  stop : Bool
  deriving DecidableEq, Repr

/-- One iteration of the command dispatch in `main`: `obj.get("op")` is
compared against the four known operations; `clear` calls
`bump_generation()` and emits `cleared` with the post-increment value;
anything else is an input-stage error. -/
def dispatch (gen : Int) (obj : JsonObj) : MainStep :=
  let op := obj.getD "op" .null
  if op = .str "speak" then ⟨gen, handleSpeak gen obj, false⟩
  else if op = .str "pause" then ⟨gen, handlePause gen obj, false⟩
  else if op = .str "clear" then ⟨gen + 1, ⟨[.cleared (gen + 1)], []⟩, false⟩
  else if op = .str "shutdown" then ⟨gen, ⟨[], []⟩, true⟩
  else ⟨gen, ⟨[.error none "input" ("Unknown op: " ++ pyStr op)], []⟩, false⟩

/-- Accumulated state of the main input loop: the generation counter
(starts at 0), everything emitted and enqueued so far, and whether
`shutdown` has been seen. -/
structure LoopState where
  gen : Int
  events : List Event
  planQ : List PlanItem
  stopped : Bool
  deriving DecidableEq, Repr

def mainStep (s : LoopState) (obj : JsonObj) : LoopState :=
  if s.stopped then s
  else
    let st := dispatch s.gen obj
    ⟨st.gen, s.events ++ st.effects.events, s.planQ ++ st.effects.enqueued,
      st.stop⟩

/-- Run the main input loop from process start (generation 0, nothing
emitted) over a list of decoded command objects. -/
def runMain (objs : List JsonObj) : LoopState :=
  objs.foldl mainStep ⟨0, [], [], false⟩

/-! ## Synthesis stage (`synth_loop`) -/

/-- Behavior of the synthesis collaborator call for one job: success
with the artifact path and measured duration, or an exception raised
before the temp file was allocated (`wav_path` still `None`), or after
(a partial artifact exists). -/
inductive SynthOutcome where
  | ok (wavPath : String) (synthMs : Nat)
  | errBeforePath (message : String)
  | errAfterPath (wavPath : String) (message : String)
  deriving DecidableEq, Repr

/-- Effects of processing one dequeued plan-queue item. -/
structure SynthEffects where
  events : List Event
  enqueued : List PlayItem
  deleted : List String
  deriving DecidableEq, Repr

/-- One iteration of `synth_loop` on a dequeued item, with `gen` the
`get_generation()` snapshot read at the staleness checkpoint.  A stale
job of either kind is dropped with no effect; a fresh pause job is
forwarded unchanged; a fresh speak job either succeeds (emit
`synth_done`, enqueue a `SynthResult`) or fails (best-effort unlink of
any partial artifact, emit a synth-stage `error`, enqueue nothing). -/
def synthStep (gen : Int) (item : PlanItem) (oc : SynthOutcome) :
    SynthEffects :=
  match item with
  | .pauseJob p =>
      if p.generation ≠ gen then ⟨[], [], []⟩
      else ⟨[], [.pauseJob p], []⟩
  | .speak j =>
      if j.generation ≠ gen then ⟨[], [], []⟩
      else
        match oc with
        | .ok path ms =>
            ⟨[.synthDone j.chunk_id ms], [.result ⟨j, path, ms⟩], []⟩
        | .errBeforePath msg =>
            ⟨[.error (some j.chunk_id) "synth" msg], [], []⟩
        | .errAfterPath path msg =>
            ⟨[.error (some j.chunk_id) "synth" msg], [], [path]⟩

/-- Draining a sequence of plan-queue items under a fixed generation
(no interleaved `clear`), concatenating effects in order: the loop
never halts on a per-job failure. -/
def synthLoopRun (gen : Int) : List (PlanItem × SynthOutcome) → SynthEffects
  | [] => ⟨[], [], []⟩
  | (item, oc) :: rest =>
      let e := synthStep gen item oc
      let r := synthLoopRun gen rest
      ⟨e.events ++ r.events, e.enqueued ++ r.enqueued, e.deleted ++ r.deleted⟩

/-! ## Playback stage (`play_loop`) -/

/-- Behavior of one playback collaborator call: the player process exit
code, its raw stderr, and the measured wall-clock duration. -/
structure PlayOutcome where
  exitCode : Int
  stderrRaw : String
  playMs : Nat
  deriving DecidableEq, Repr

/-- `play_file`: run the player, return `(returncode, stripped stderr)`. -/
def play_file (oc : PlayOutcome) : Int × String :=
  (oc.exitCode, pyStrip oc.stderrRaw)

/-- Effects of processing one dequeued play-queue item. -/
structure PlayEffects where
  events : List Event
  deleted : List String
  deriving DecidableEq, Repr

/-- One iteration of `play_loop` on a dequeued item, with `gen` the
`get_generation()` snapshot at the staleness checkpoint.  A stale pause
job is dropped silently; a stale result is dropped silently after
unlinking its artifact; a fresh pause emits `pause_done` with the
stored `pause_ms`; a fresh result plays the artifact, always unlinks
it, then emits a play-stage `error` on non-zero exit (stderr, or a
fallback message naming the player) and `play_done` on success with the
`synth_ms` carried on the result. -/
def playStep (player : String) (gen : Int) (item : PlayItem)
    (oc : PlayOutcome) : PlayEffects :=
  match item with
  | .pauseJob p =>
      if p.generation ≠ gen then ⟨[], []⟩
      else ⟨[.pauseDone p.chunk_id p.pause_ms], []⟩
  | .result r =>
      if r.job.generation ≠ gen then ⟨[], [r.wav_path]⟩
      else
        let cs := play_file oc
        let msg :=
          if cs.2 = "" then
            player ++ " exited with code " ++ toString cs.1
          else cs.2
        if cs.1 ≠ 0 then
          ⟨[.error (some r.job.chunk_id) "play" msg], [r.wav_path]⟩
        else
          ⟨[.playDone r.job.chunk_id r.synth_ms oc.playMs], [r.wav_path]⟩

/-- Events observed for one speak job carried through both stages under
a fixed generation: the synthesis-stage effects followed by the
playback-stage effects of whatever the synthesis stage enqueued. -/
def pipelineRun (player : String) (gen : Int) (j : SpeakJob)
    (so : SynthOutcome) (po : PlayOutcome) : List Event :=
  let se := synthStep gen (.speak j) so
  se.events ++
    se.enqueued.flatMap (fun it => (playStep player gen it po).events)

/-! ## Claims -/

/-- C1: Generation-based cancellation.  A SpeakJob or PauseJob dequeued
by the synthesis stage whose stored generation differs from the counter
read at that moment is dropped silently: no event, nothing enqueued,
nothing deleted.  A SynthResult dequeued by the playback stage whose
underlying job is stale has its artifact file deleted and is dropped
with no event; a stale PauseJob there is likewise dropped with no
event. -/
theorem generation_cancellation :
    (∀ gen (j : SpeakJob) oc, j.generation ≠ gen →
        synthStep gen (.speak j) oc = ⟨[], [], []⟩) ∧
    (∀ gen (p : PauseJob) oc, p.generation ≠ gen →
        synthStep gen (.pauseJob p) oc = ⟨[], [], []⟩) ∧
    (∀ player gen (r : SynthResult) po, r.job.generation ≠ gen →
        playStep player gen (.result r) po = ⟨[], [r.wav_path]⟩) ∧
    (∀ player gen (p : PauseJob) po, p.generation ≠ gen →
        playStep player gen (.pauseJob p) po = ⟨[], []⟩) := by
  refine ⟨?_, ?_, ?_, ?_⟩ <;> intros <;> simp [synthStep, playStep, *]

theorem generation_cancellation_witness :
    synthStep 1 (.speak ⟨"a", "t", "Bella", 1, 0⟩) (.ok "f.wav" 5) =
      ⟨[], [], []⟩ ∧
    synthStep 1 (.pauseJob ⟨"p", 0, 0⟩) (.ok "f.wav" 5) = ⟨[], [], []⟩ ∧
    playStep "aplay" 1 (.result ⟨⟨"a", "t", "Bella", 1, 0⟩, "f.wav", 5⟩)
      ⟨0, "", 7⟩ = ⟨[], ["f.wav"]⟩ ∧
    playStep "aplay" 1 (.pauseJob ⟨"p", 0, 0⟩) ⟨0, "", 7⟩ = ⟨[], []⟩ :=
  ⟨generation_cancellation.1 1 _ _ (by decide),
   generation_cancellation.2.1 1 _ _ (by decide),
   generation_cancellation.2.2.1 "aplay" 1 _ _ (by decide),
   generation_cancellation.2.2.2 "aplay" 1 _ _ (by decide)⟩

/-- C2: The generation counter starts at 0, only the `clear` handler
changes it, each `clear` adds exactly 1 and emits a `cleared` event
carrying the post-increment value, the counter is non-decreasing over
any run of the main loop, and the first `clear` of a fresh process
emits `cleared 1`. -/
theorem generation_counter_clear :
    (runMain []).gen = 0 ∧
    (∀ g (obj : JsonObj), obj.getD "op" .null = .str "clear" →
        dispatch g obj = ⟨g + 1, ⟨[.cleared (g + 1)], []⟩, false⟩) ∧
    (∀ g (obj : JsonObj), obj.getD "op" .null ≠ .str "clear" →
        (dispatch g obj).gen = g) ∧
    (∀ (s : LoopState) (obj : JsonObj), s.gen ≤ (mainStep s obj).gen) ∧
    (runMain [[("op", .str "clear")]]).events = [.cleared 1] := by
  refine ⟨rfl, ?_, ?_, ?_, by decide⟩
  · intro g obj h
    simp [dispatch, h]
  · intro g obj h
    simp only [dispatch]
    split_ifs <;> simp_all
  · intro s obj
    simp only [mainStep]
    split
    · exact le_refl _
    · simp only [dispatch]
      split_ifs <;> simp

theorem generation_counter_clear_witness :
    dispatch 0 [("op", JsonVal.str "clear")] =
      ⟨1, ⟨[.cleared 1], []⟩, false⟩ ∧
    (dispatch 5 [("op", JsonVal.str "speak")]).gen = 5 :=
  ⟨generation_counter_clear.2.1 0 _ (by decide),
   generation_counter_clear.2.2.1 5 _ (by decide)⟩

/-- C3: Round-trip.  A speak job carried through both stages under an
unchanged generation produces exactly one of the event patterns
`synth_done` then `play_done`, `synth_done` then a play-stage `error`,
or a synth-stage `error` alone — for any collaborator behavior: never
both a success and a failure, never zero events. -/
theorem speak_roundtrip (player : String) (gen : Int) (j : SpeakJob)
    (so : SynthOutcome) (po : PlayOutcome) (h : j.generation = gen) :
    (∃ ms pms, pipelineRun player gen j so po =
        [.synthDone j.chunk_id ms, .playDone j.chunk_id ms pms]) ∨
    (∃ ms msg, pipelineRun player gen j so po =
        [.synthDone j.chunk_id ms, .error (some j.chunk_id) "play" msg]) ∨
    (∃ msg, pipelineRun player gen j so po =
        [.error (some j.chunk_id) "synth" msg]) := by
  cases so with
  | ok path ms =>
      by_cases hz : po.exitCode = 0
      · exact Or.inl ⟨ms, po.playMs,
          by simp [pipelineRun, synthStep, playStep, play_file, h, hz]⟩
      · refine Or.inr (Or.inl ⟨ms,
          if pyStrip po.stderrRaw = "" then
            player ++ " exited with code " ++ toString po.exitCode
          else pyStrip po.stderrRaw, ?_⟩)
        simp [pipelineRun, synthStep, playStep, play_file, h, hz]
  | errBeforePath msg =>
      exact Or.inr (Or.inr ⟨msg, by simp [pipelineRun, synthStep, h]⟩)
  | errAfterPath path msg =>
      exact Or.inr (Or.inr ⟨msg, by simp [pipelineRun, synthStep, h]⟩)

theorem speak_roundtrip_witness :
    (∃ ms pms, pipelineRun "aplay" 0 ⟨"a", "t", "Bella", 1, 0⟩
        (.ok "f.wav" 3) ⟨0, "", 4⟩ = [.synthDone "a" ms, .playDone "a" ms pms]) ∨
    (∃ ms msg, pipelineRun "aplay" 0 ⟨"a", "t", "Bella", 1, 0⟩
        (.ok "f.wav" 3) ⟨0, "", 4⟩ =
          [.synthDone "a" ms, .error (some "a") "play" msg]) ∨
    (∃ msg, pipelineRun "aplay" 0 ⟨"a", "t", "Bella", 1, 0⟩
        (.ok "f.wav" 3) ⟨0, "", 4⟩ = [.error (some "a") "synth" msg]) :=
  speak_roundtrip "aplay" 0 ⟨"a", "t", "Bella", 1, 0⟩ (.ok "f.wav" 3)
    ⟨0, "", 4⟩ rfl

/-- C4: Synthesis failure isolation.  On a collaborator failure for a
fresh speak job, the synthesis stage deletes the partial artifact when
one was created (and deletion is best-effort, not reported as an
event), emits exactly one error event with the job's id and stage
"synth", enqueues nothing onto the play queue, and the loop continues
processing subsequent items unchanged. -/
theorem synth_failure_isolation (gen : Int) (j : SpeakJob)
    (msg path : String) (rest : List (PlanItem × SynthOutcome))
    (h : j.generation = gen) :
    synthStep gen (.speak j) (.errBeforePath msg) =
      ⟨[.error (some j.chunk_id) "synth" msg], [], []⟩ ∧
    synthStep gen (.speak j) (.errAfterPath path msg) =
      ⟨[.error (some j.chunk_id) "synth" msg], [], [path]⟩ ∧
    synthLoopRun gen
        ((PlanItem.speak j, SynthOutcome.errAfterPath path msg) :: rest) =
      ⟨.error (some j.chunk_id) "synth" msg :: (synthLoopRun gen rest).events,
       (synthLoopRun gen rest).enqueued,
       path :: (synthLoopRun gen rest).deleted⟩ := by
  refine ⟨by simp [synthStep, h], by simp [synthStep, h], ?_⟩
  simp [synthLoopRun, synthStep, h]

theorem synth_failure_isolation_witness :
    synthStep 0 (.speak ⟨"a", "t", "Bella", 1, 0⟩) (.errBeforePath "boom") =
      ⟨[.error (some "a") "synth" "boom"], [], []⟩ ∧
    synthStep 0 (.speak ⟨"a", "t", "Bella", 1, 0⟩)
        (.errAfterPath "f.wav" "boom") =
      ⟨[.error (some "a") "synth" "boom"], [], ["f.wav"]⟩ ∧
    synthLoopRun 0
        [(PlanItem.speak ⟨"a", "t", "Bella", 1, 0⟩,
          SynthOutcome.errAfterPath "f.wav" "boom"),
         (PlanItem.pauseJob ⟨"p", 2, 0⟩, SynthOutcome.ok "g.wav" 9)] =
      ⟨[.error (some "a") "synth" "boom"],
       [.pauseJob ⟨"p", 2, 0⟩], ["f.wav"]⟩ := by
  have hth := synth_failure_isolation 0 ⟨"a", "t", "Bella", 1, 0⟩ "boom" "f.wav"
    [(PlanItem.pauseJob ⟨"p", 2, 0⟩, SynthOutcome.ok "g.wav" 9)] rfl
  exact ⟨hth.1, hth.2.1, by rw [hth.2.2]; decide⟩

/-- C5: Playback of a fresh SynthResult always deletes the artifact
after the player returns, regardless of outcome; non-zero exit yields
exactly one play-stage error event with the job's id; success yields
exactly one `play_done` whose `synth_ms` is the value stored on the
SynthResult — the same value the synthesis stage put in that job's
`synth_done` event when it built the result. -/
theorem play_result_effects (player : String) (gen : Int) :
    (∀ (j : SpeakJob) path ms, j.generation = gen →
        synthStep gen (.speak j) (.ok path ms) =
          ⟨[.synthDone j.chunk_id ms], [.result ⟨j, path, ms⟩], []⟩) ∧
    (∀ (r : SynthResult) (po : PlayOutcome), r.job.generation = gen →
        (playStep player gen (.result r) po).deleted = [r.wav_path]) ∧
    (∀ (r : SynthResult) (po : PlayOutcome), r.job.generation = gen →
        po.exitCode ≠ 0 →
        (playStep player gen (.result r) po).events =
          [.error (some r.job.chunk_id) "play"
            (if pyStrip po.stderrRaw = "" then
               player ++ " exited with code " ++ toString po.exitCode
             else pyStrip po.stderrRaw)]) ∧
    (∀ (r : SynthResult) (po : PlayOutcome), r.job.generation = gen →
        po.exitCode = 0 →
        (playStep player gen (.result r) po).events =
          [.playDone r.job.chunk_id r.synth_ms po.playMs]) := by
  refine ⟨fun j path ms h => by simp [synthStep, h], ?_, ?_, ?_⟩
  · intro r po h
    simp only [playStep, play_file, h]
    split_ifs <;> simp_all
  · intro r po h hz
    simp [playStep, play_file, h, hz]
  · intro r po h hz
    simp [playStep, play_file, h, hz]

theorem play_result_effects_witness :
    synthStep 0 (.speak ⟨"a", "t", "Bella", 1, 0⟩) (.ok "f.wav" 3) =
      ⟨[.synthDone "a" 3], [.result ⟨⟨"a", "t", "Bella", 1, 0⟩, "f.wav", 3⟩],
        []⟩ ∧
    (playStep "aplay" 0 (.result ⟨⟨"a", "t", "Bella", 1, 0⟩, "f.wav", 3⟩)
        ⟨1, " bad ", 4⟩).deleted = ["f.wav"] ∧
    (playStep "aplay" 0 (.result ⟨⟨"a", "t", "Bella", 1, 0⟩, "f.wav", 3⟩)
        ⟨1, " bad ", 4⟩).events =
      [.error (some "a") "play"
        (if pyStrip " bad " = "" then "aplay" ++ " exited with code " ++
           toString (1 : Int)
         else pyStrip " bad ")] ∧
    (playStep "aplay" 0 (.result ⟨⟨"a", "t", "Bella", 1, 0⟩, "f.wav", 3⟩)
        ⟨0, "", 4⟩).events = [.playDone "a" 3 4] :=
  ⟨(play_result_effects "aplay" 0).1 _ "f.wav" 3 rfl,
   (play_result_effects "aplay" 0).2.1 _ ⟨1, " bad ", 4⟩ rfl,
   (play_result_effects "aplay" 0).2.2.1 _ ⟨1, " bad ", 4⟩ rfl (by decide),
   (play_result_effects "aplay" 0).2.2.2 _ ⟨0, "", 4⟩ rfl rfl⟩

/-- Field equations of a successfully decoded SpeakJob (shared helper):
each stored field equals the corresponding coercion of the raw input. -/
theorem parse_speak_fields (g : Int) (obj : JsonObj) (j : SpeakJob)
    (h : parse_speak g obj = some j) :
    j.chunk_id = pyStrip (pyStr (obj.getD "id" (.str ""))) ∧
    j.voice = (if pyStrip (pyStr (obj.getD "voice" (.str "Bella"))) = ""
      then "Bella" else pyStrip (pyStr (obj.getD "voice" (.str "Bella")))) ∧
    j.speed = (pyFloat (obj.getD "speed" (.float 1))).getD 1 ∧
    j.generation = (pyInt (obj.getD "generation" (.int g))).getD g := by
  simp only [parse_speak] at h
  split_ifs at h <;> injection h with h <;> subst h <;> simp_all

/-- Field equations of a successfully decoded PauseJob (shared helper). -/
theorem parse_pause_fields (g : Int) (obj : JsonObj) (j : PauseJob)
    (h : parse_pause g obj = some j) :
    j.chunk_id = pyStrip (pyStr (obj.getD "id" (.str ""))) ∧
    j.pause_ms = max 0 ((pyInt (obj.getD "pause_ms" (.int 0))).getD 0) ∧
    j.generation = (pyInt (obj.getD "generation" (.int g))).getD g := by
  simp only [parse_pause] at h
  split_ifs at h
  injection h with h
  subst h
  exact ⟨rfl, rfl, rfl⟩

/-- C6: The speak branch of the decoder enqueues a SpeakJob and emits
`ack` with its id exactly when both the trimmed id and the trimmed text
are non-empty; otherwise it emits an input-stage error and enqueues
nothing. -/
theorem decoder_speak_gate (g : Int) (obj : JsonObj) :
    ((parse_speak g obj).isSome ↔
      (pyStrip (pyStr (obj.getD "id" (.str ""))) ≠ "" ∧
       pyStrip (pyStr (obj.getD "text" (.str ""))) ≠ "")) ∧
    (∀ j, parse_speak g obj = some j →
        handleSpeak g obj = ⟨[.ack j.chunk_id], [.speak j]⟩) ∧
    (parse_speak g obj = none →
        handleSpeak g obj =
          ⟨[.error none "input" "Invalid speak payload"], []⟩) := by
  refine ⟨?_, ?_, ?_⟩
  · by_cases h : pyStrip (pyStr (obj.getD "id" (.str ""))) = "" ∨
        pyStrip (pyStr (obj.getD "text" (.str ""))) = ""
    · simp only [parse_speak]
      rw [if_pos h]
      rcases h with h | h <;> simp [h]
    · simp only [parse_speak]
      rw [if_neg h]
      simpa using not_or.mp h
  · intro j hj
    simp [handleSpeak, hj]
  · intro hn
    simp [handleSpeak, hn]

theorem decoder_speak_gate_witness :
    handleSpeak 0 [("op", .str "speak"), ("id", .str "a"),
        ("text", .str "hello")] =
      ⟨[.ack "a"], [.speak ⟨"a", "hello", "Bella", 1, 0⟩]⟩ ∧
    handleSpeak 0 [("op", .str "speak"), ("id", .str " "),
        ("text", .str "hello")] =
      ⟨[.error none "input" "Invalid speak payload"], []⟩ :=
  ⟨(decoder_speak_gate 0 [("op", .str "speak"), ("id", .str "a"),
        ("text", .str "hello")]).2.1 ⟨"a", "hello", "Bella", 1, 0⟩
      (by decide),
   (decoder_speak_gate 0 [("op", .str "speak"), ("id", .str " "),
        ("text", .str "hello")]).2.2 (by decide)⟩

/-- C7: Decoder defaults for SpeakJob fields: a missing voice yields
"Bella"; a missing or non-numeric speed yields 1.0; a missing or
non-numeric generation yields the counter value read at decode time;
an explicit integer generation is stored verbatim, even when it
differs from the current counter. -/
theorem decoder_speak_defaults (g m : Int) (obj : JsonObj) (j : SpeakJob)
    (h : parse_speak g obj = some j) :
    (obj.getVal "voice" = none → j.voice = "Bella") ∧
    (obj.getVal "speed" = none → j.speed = 1) ∧
    (pyFloat (obj.getD "speed" (.float 1)) = none → j.speed = 1) ∧
    (obj.getVal "generation" = none → j.generation = g) ∧
    (pyInt (obj.getD "generation" (.int g)) = none → j.generation = g) ∧
    (obj.getVal "generation" = some (.int m) → j.generation = m) := by
  obtain ⟨-, hvoice, hspeed, hgen⟩ := parse_speak_fields g obj j h
  refine ⟨?_, ?_, ?_, ?_, ?_, ?_⟩
  · intro hv
    rw [hvoice]
    simp only [JsonObj.getD, hv, Option.getD_none]
    decide
  · intro hv
    rw [hspeed]
    simp only [JsonObj.getD, hv, Option.getD_none]
    decide
  · intro hf
    rw [hspeed]
    simp [hf]
  · intro hv
    rw [hgen]
    simp only [JsonObj.getD, hv, Option.getD_none]
    simp [pyInt]
  · intro hf
    rw [hgen]
    simp [hf]
  · intro hv
    rw [hgen]
    simp only [JsonObj.getD, hv, Option.getD_some]
    simp [pyInt]

theorem decoder_speak_defaults_witness :
    (JsonObj.getVal [("id", JsonVal.str "a"), ("text", JsonVal.str "t"),
        ("generation", JsonVal.int 42)] "voice" = none →
      (SpeakJob.mk "a" "t" "Bella" 1 42).voice = "Bella") ∧
    (JsonObj.getVal [("id", JsonVal.str "a"), ("text", JsonVal.str "t"),
        ("generation", JsonVal.int 42)] "speed" = none →
      (SpeakJob.mk "a" "t" "Bella" 1 42).speed = 1) ∧
    (pyFloat (JsonObj.getD [("id", JsonVal.str "a"),
        ("text", JsonVal.str "t"), ("generation", JsonVal.int 42)]
        "speed" (.float 1)) = none →
      (SpeakJob.mk "a" "t" "Bella" 1 42).speed = 1) ∧
    (JsonObj.getVal [("id", JsonVal.str "a"), ("text", JsonVal.str "t"),
        ("generation", JsonVal.int 42)] "generation" = none →
      (SpeakJob.mk "a" "t" "Bella" 1 42).generation = 0) ∧
    (pyInt (JsonObj.getD [("id", JsonVal.str "a"),
        ("text", JsonVal.str "t"), ("generation", JsonVal.int 42)]
        "generation" (.int 0)) = none →
      (SpeakJob.mk "a" "t" "Bella" 1 42).generation = 0) ∧
    (JsonObj.getVal [("id", JsonVal.str "a"), ("text", JsonVal.str "t"),
        ("generation", JsonVal.int 42)] "generation" = some (.int 42) →
      (SpeakJob.mk "a" "t" "Bella" 1 42).generation = 42) :=
  decoder_speak_defaults 0 42
    [("id", JsonVal.str "a"), ("text", JsonVal.str "t"),
      ("generation", JsonVal.int 42)]
    ⟨"a", "t", "Bella", 1, 42⟩ (by decide)

/-- C8 counterexample: an explicit negative speed field is accepted and
stored verbatim, so the decoded job's speed is not positive. -/
theorem speed_positive_counterexample :
    parse_speak 0 [("id", .str "a"), ("text", .str "t"),
        ("speed", .float (-2))] =
      some ⟨"a", "t", "Bella", -2, 0⟩ ∧
    ¬(0 < (SpeakJob.mk "a" "t" "Bella" (-2) 0).speed) := by
  decide

/-- C8 amended: the decoded speed is positive whenever the numeric
interpretation of the supplied speed field — defaulting to 1.0 when the
field is missing or malformed — is positive; an explicit non-positive
numeric speed is stored verbatim. -/
theorem speed_positive_amended (g : Int) (obj : JsonObj) (j : SpeakJob)
    (h : parse_speak g obj = some j)
    (hp : 0 < (pyFloat (obj.getD "speed" (.float 1))).getD 1) :
    0 < j.speed := by
  rw [(parse_speak_fields g obj j h).2.2.1]
  exact hp

theorem speed_positive_amended_witness :
    0 < (SpeakJob.mk "a" "t" "Bella" 2 0).speed :=
  speed_positive_amended 0
    [("id", .str "a"), ("text", .str "t"), ("speed", .float 2)]
    ⟨"a", "t", "Bella", 2, 0⟩ (by decide) (by decide)

/-- C9: A decoded PauseJob's `pause_ms` equals `max 0` of the integer
interpretation of the supplied field (default 0 when missing or
malformed), hence is non-negative; the synthesis stage forwards a fresh
pause job unchanged and the playback stage's `pause_done` event carries
exactly the stored clamped value. -/
theorem pause_clamp_roundtrip (player : String) (g g' : Int)
    (obj : JsonObj) (j : PauseJob) (so : SynthOutcome) (po : PlayOutcome)
    (h : parse_pause g obj = some j) :
    0 ≤ j.pause_ms ∧
    j.pause_ms = max 0 ((pyInt (obj.getD "pause_ms" (.int 0))).getD 0) ∧
    (j.generation = g' →
      synthStep g' (.pauseJob j) so = ⟨[], [.pauseJob j], []⟩ ∧
      playStep player g' (.pauseJob j) po =
        ⟨[.pauseDone j.chunk_id j.pause_ms], []⟩) := by
  obtain ⟨-, hms, -⟩ := parse_pause_fields g obj j h
  refine ⟨?_, hms,
    fun hg => ⟨by simp [synthStep, hg], by simp [playStep, hg]⟩⟩
  rw [hms]
  exact le_max_left 0 _

theorem pause_clamp_roundtrip_witness :
    0 ≤ (PauseJob.mk "p1" 0 0).pause_ms ∧
    (PauseJob.mk "p1" 0 0).pause_ms =
      max 0 ((pyInt (JsonObj.getD [("id", JsonVal.str "p1"),
        ("pause_ms", JsonVal.int (-5))] "pause_ms" (.int 0))).getD 0) ∧
    ((PauseJob.mk "p1" 0 0).generation = 0 →
      synthStep 0 (.pauseJob ⟨"p1", 0, 0⟩) (.ok "f.wav" 3) =
        ⟨[], [.pauseJob ⟨"p1", 0, 0⟩], []⟩ ∧
      playStep "aplay" 0 (.pauseJob ⟨"p1", 0, 0⟩) ⟨0, "", 4⟩ =
        ⟨[.pauseDone "p1" 0], []⟩) :=
  pause_clamp_roundtrip "aplay" 0 0
    [("id", JsonVal.str "p1"), ("pause_ms", JsonVal.int (-5))]
    ⟨"p1", 0, 0⟩ (SynthOutcome.ok "f.wav" 3) ⟨0, "", 4⟩ (by decide)

/-- C10: The decoder coerces `id` (and `text`) with Python `str()`
before trimming, so non-string values are accepted: a JSON-null id
becomes the non-empty id "None" (enqueued and acked under that id, for
both speak and pause), and an integer id 5 becomes "5". -/
theorem decoder_str_coercion :
    handleSpeak 0 [("op", .str "speak"), ("id", .null), ("text", .str "hi")] =
      ⟨[.ack "None"], [.speak ⟨"None", "hi", "Bella", 1, 0⟩]⟩ ∧
    handlePause 0 [("op", .str "pause"), ("id", .null)] =
      ⟨[.ack "None"], [.pauseJob ⟨"None", 0, 0⟩]⟩ ∧
    handleSpeak 0 [("op", .str "speak"), ("id", .int 5), ("text", .str "hi")] =
      ⟨[.ack "5"], [.speak ⟨"5", "hi", "Bella", 1, 0⟩]⟩ := by
  decide

end KittenWorker
